import Mathlib

/-!
Verification development for the `aio_sf_streaming` CometD streaming client.

Shallow embedding of the protocol engine (`core.py`) and its behavioural
mixins (`mixins.py`): inbound messages are records holding the JSON keys the
code reads, stateful coroutines become explicit state-passing functions, the
environment (server responses, long-poll outcomes, callback return values)
is passed in as data, and Python exceptions become explicit error values.
Machine floats used for retry durations are modelled by `ℚ` (all operations
involved — `*`, `min`, comparison with literals — are exact on the inputs
considered). Python dict lookups with defaults become `Option.getD`.
-/

namespace AioSfStreaming

/-- Python-level exceptions that the embedded code paths can raise. -/
inductive PyErr where
  | keyError
  | attributeError
  deriving DecidableEq

/-- Python's `str.startswith(p)`: a character-prefix test, modelled on the
character list of the string (Lean's byte-position `String.startsWith` does
not reduce inside the kernel). -/
def strStartsWith (s p : String) : Bool :=
  p.data.isPrefixOf s.data

/-- An inbound CometD message, holding the JSON keys read by the client code:
`message.get("channel", "")` / `message["channel"]` and
`message.get("error")`.  A key absent from the JSON object is `none`. -/
structure Message where
  channel : Option String := none
  error : Option String := none
  deriving DecidableEq

/-- Model of `message.get("channel", "")` from `core.py` `events()`. -/
def Message.channelD (m : Message) : String :=
  m.channel.getD ""

/-- Embedding of `BaseSalesforceStreaming.events` (core.py): iterate over `messages()`
output and yield only messages whose channel does not start with `"/meta/"`.
The input list is the sequence produced by `messages()`. -/
def eventsOf : List Message → List Message
  | [] => []
  | m :: ms =>
    if strStartsWith m.channelD "/meta/" then eventsOf ms
    else m :: eventsOf ms

/-- Spec-side formulation of the Message Stream Filter, written from the
spec's words: "`events()` output = `messages()` output filtered by that
predicate". Compared against `eventsOf`, the embedding of the source. -/
def eventsSpec (ms : List Message) : List Message :=
  ms.filter fun m => !(strStartsWith m.channelD "/meta/")

end AioSfStreaming

namespace AioSfStreaming

/-! ### Replay mixin (`mixins.py`, `ReplayType` / `ReplayMixin`) -/

/-- The `ReplayType` enumeration from mixins.py. -/
inductive ReplayType where
  | ALL_EVENTS
  | NEW_EVENTS
  deriving DecidableEq

/-- The `ReplayType.value` mapping: `ALL_EVENTS = -2`, `NEW_EVENTS = -1`. -/
def ReplayType.value : ReplayType → Int
  | .ALL_EVENTS => -2
  | .NEW_EVENTS => -1

/-- Possible return values of the injected `get_last_replay_id` callback:
`None`, a `ReplayType` sentinel, or an integer position. -/
inductive ReplayResult where
  | noStored
  | sentinel (r : ReplayType)
  | position (n : Int)
  deriving DecidableEq

/-- Python truthiness of a `get_last_replay_id` return value: `None` is
falsy, enum members are truthy, an `int` is truthy iff non-zero. -/
def ReplayResult.truthy : ReplayResult → Bool
  | .noStored => false
  | .sentinel _ => true
  | .position n => n != 0

/-- The replay id computed by `ReplayMixin.get_subscribe_payload`:
`if not replay_id: replay_id = ReplayType.NEW_EVENTS`, then
`if isinstance(replay_id, ReplayType): replay_id = replay_id.value`, then
`replay_id = int(replay_id)` (identity on integers). -/
def computeReplayId (r : ReplayResult) : Int :=
  let r' := if r.truthy then r else ReplayResult.sentinel .NEW_EVENTS
  match r' with
  | .noStored => -1
  | .sentinel s => s.value
  | .position n => n

/-- The subscribe payload built by `ReplayMixin.get_subscribe_payload` on top
of `BaseSalesforceStreaming.get_subscribe_payload`: the base
`{channel: "/meta/subscribe", subscription: channel}` frame with
`ext.replay[channel]` set to the computed replay id. `extReplay` models the
`ext["replay"]` dict, here always the singleton for the channel. -/
structure SubscribePayload where
  channel : String
  subscription : String
  extReplay : List (String × Int)
  deriving DecidableEq

/-- Embedding of `ReplayMixin.get_subscribe_payload(channel)`, with `r` the value
returned by the `get_last_replay_id` callback. -/
def getSubscribePayload (ch : String) (r : ReplayResult) : SubscribePayload :=
  { channel := "/meta/subscribe"
    subscription := ch
    extReplay := [(ch, computeReplayId r)] }

end AioSfStreaming

namespace AioSfStreaming

/-! ### Auto-reconnect mixin subscription set (`mixins.py`, `AutoReconnectMixin`) -/

/-- Result of one `AutoReconnectMixin.unsubscribe(channel)` call:
the subscription set afterwards, the channel an unsubscribe frame was built
and sent for (if any), and the exception raised (if any). -/
structure UnsubResult where
  subs : Finset String
  sentFor : Option String
  err : Option PyErr
  deriving DecidableEq

/-- Embedding of `AutoReconnectMixin.unsubscribe`: `self._subchannels.remove(channel)`
(a Python `set.remove`, raising `KeyError` when the element is absent),
then delegate to the inner `unsubscribe`, which builds
`{channel: "/meta/unsubscribe", subscription: channel}` and sends it. -/
def arUnsubscribe (subs : Finset String) (ch : String) : UnsubResult :=
  if ch ∈ subs then
    { subs := subs.erase ch, sentFor := some ch, err := none }
  else
    { subs := subs, sentFor := none, err := some .keyError }

/-- Embedding of `AutoReconnectMixin.subscribe`: `self._subchannels.add(channel)` then
delegate to the inner `subscribe`. Returns the set afterwards. -/
def arSubscribe (subs : Finset String) (ch : String) : Finset String :=
  insert ch subs

end AioSfStreaming

namespace AioSfStreaming

/-! ### Re-subscribe mixin (`mixins.py`, `ReSubscribeMixin`)

The retry loop is modelled per channel: the dicts
`retry_current_count` / `retry_current_duration` hold, for the channel at
hand, a count (dict lookup `.get(channel, 0)`) and a duration (dict lookup
`.get(channel, -1)`); an entry absent from the dict is indistinguishable
from the default, so the state is the pair of values. -/

/-- Constructor arguments of `ReSubscribeMixin.__init__`. -/
structure RetryConfig where
  retry_sub_duration : ℚ
  retry_factor : ℚ
  retry_max_duration : ℚ
  retry_max_count : ℕ
  deriving DecidableEq

/-- Per-channel retry state: `retry_current_count.get(channel, 0)` and
`retry_current_duration.get(channel, -1)`. -/
structure RetryState where
  count : ℕ
  duration : ℚ
  deriving DecidableEq

/-- The initial / reset state: no entry in either dict, equivalent to the
values written by the reset (`duration = -1`, `count = 0`). -/
def RetryState.unset : RetryState := { count := 0, duration := -1 }

/-- First element of a subscribe response array (`response[0]`):
`successful` and the `ext.sfdc.failureReason` chain
(`response[0].get("ext", {}).get("sfdc", {}).get("failureReason", "")`,
collapsed into one optional field since every absent level yields `""`). -/
structure SubResult where
  successful : Bool
  failureReason : Option String
  deriving DecidableEq

/-- Default `should_retry_on_error_response` callback: retry iff the failure
reason string starts with `"SERVER_UNAVAILABLE"`. -/
def shouldRetryOnErrorResponse (r : SubResult) : Bool :=
  strStartsWith (r.failureReason.getD "") "SERVER_UNAVAILABLE"

/-- Default `should_retry_on_exception` callback: always `False`. -/
def shouldRetryOnException : Bool := false

/-- Outcome of one inner `super().subscribe(channel)` call: it raised an
exception, or it returned a response whose first element is `r` (responses
are non-empty arrays of results on the wire, and the code reads only
`response[0]` and the truthiness of the array, which a non-empty array
always passes). -/
inductive SubOutcome where
  | raised
  | response (r : SubResult)
  deriving DecidableEq

/-- Embedding of `ReSubscribeMixin._update_retry_count`: increment the count; if it has
reached `retry_max_count` return `False` (duration untouched); otherwise set
the duration to `retry_sub_duration` when unset (negative), else to
`min(duration * retry_factor, retry_max_count)` — note the source caps with
`retry_max_count`, not `retry_max_duration`. -/
def updateRetryCount (cfg : RetryConfig) (st : RetryState) : Bool × RetryState :=
  let count := st.count + 1
  if cfg.retry_max_count ≤ count then
    (false, { st with count := count })
  else
    let duration :=
      if st.duration < 0 then cfg.retry_sub_duration
      else min (st.duration * cfg.retry_factor) (cfg.retry_max_count : ℚ)
    (true, { count := count, duration := duration })

/-- A concrete retry configuration exercising the backoff cap: initial
duration 10, factor 3, maximum duration 100, maximum count 5. -/
def cfgEx : RetryConfig :=
  { retry_sub_duration := 10, retry_factor := 3,
    retry_max_duration := 100, retry_max_count := 5 }

/-- A concrete busy failure result (`successful: false`, failure reason
starting with the busy sentinel). -/
def busyR : SubResult :=
  { successful := false, failureReason := some "SERVER_UNAVAILABLE: busy" }

/-- A concrete successful subscribe result. -/
def okR : SubResult :=
  { successful := true, failureReason := none }

/-- How one `subscribe()` call terminated. -/
inductive SubTerm where
  | ok (r : SubResult)
  | exn
  | outOfOutcomes
  deriving DecidableEq

/-- One run of `ReSubscribeMixin.subscribe`. -/
structure SubRun where
  term : SubTerm
  state : RetryState
  calls : ℕ
  sleeps : List ℚ
  deriving DecidableEq

/-- Embedding of `ReSubscribeMixin.subscribe(channel)` with the default callbacks, driven
by the list of inner-call outcomes. Each iteration consumes one outcome:
* exception: `should_retry_on_exception` is `False`, so re-raise (without
  touching the retry state);
* successful first result: reset the state and return the response;
* unsuccessful: consult `should_retry_on_error_response` and, when true,
  `_update_retry_count`; when the combined answer is no-retry, reset the
  state and return the response; otherwise sleep
  `retry_current_duration[channel]` and loop. -/
def subscribeLoop (cfg : RetryConfig) (st : RetryState) :
    List SubOutcome → SubRun
  | [] => { term := .outOfOutcomes, state := st, calls := 0, sleeps := [] }
  | o :: rest =>
    match o with
    | .raised =>
      { term := .exn, state := st, calls := 1, sleeps := [] }
    | .response r =>
      if r.successful then
        { term := .ok r, state := .unset, calls := 1, sleeps := [] }
      else if shouldRetryOnErrorResponse r then
        if (updateRetryCount cfg st).1 then
          let run := subscribeLoop cfg (updateRetryCount cfg st).2 rest
          { run with
            calls := run.calls + 1
            sleeps := (updateRetryCount cfg st).2.duration :: run.sleeps }
        else
          { term := .ok r, state := .unset, calls := 1, sleeps := [] }
      else
        { term := .ok r, state := .unset, calls := 1, sleeps := [] }

end AioSfStreaming

namespace AioSfStreaming

/-! ### Core long-poll message loop (`core.py`, `BaseSalesforceStreaming.messages`)

The generator is driven by the environment: a list of long-poll outcomes
(one per `send` of the connect frame) and the stop-flag. `ask_stop()` runs
concurrently with the generator, so the flag is modelled by the time at
which it becomes (and stays) `True`, where time counts the successive reads
of `self.should_stop` performed by the loop; `none` means it is never set. -/

/-- Outcome of one `send({"channel": "/meta/connect", ...})` call:
`asyncio.TimeoutError`, an `aiohttp.ClientResponseError` with status
`code`, or a decoded JSON array of messages. -/
inductive PollOutcome where
  | timeout
  | httpError (code : ℕ)
  | success (msgs : List Message)
  deriving DecidableEq

/-- How a (finite prefix of a) `messages()` run ended. -/
inductive RunEnd where
  | stopped
  | failed (code : ℕ)
  | ranOut
  deriving DecidableEq

/-- Observable trace of a `messages()` run: the flag-read times at which a
send was issued, the yielded messages tagged with the flag-read time
directly preceding each yield, and how the run ended. -/
structure MsgRun where
  sendTimes : List ℕ
  yielded : List (ℕ × Message)
  ending : RunEnd
  deriving DecidableEq

/-- Value of `self.should_stop` at the `t`-th read, when the flag becomes
true at read `stopAt` (monotone: `ask_stop` only ever sets it). -/
def flagAt (stopAt : Option ℕ) (t : ℕ) : Bool :=
  match stopAt with
  | none => false
  | some k => k ≤ t

/-- Trace of the `for message in response:` body: the tagged yields, the
next flag-read time, and whether the loop returned early because the flag
was observed set. -/
structure YieldRun where
  ys : List (ℕ × Message)
  next : ℕ
  early : Bool
  deriving DecidableEq

/-- The `for message in response:` body: before each yield, read the flag
(one time tick) and return immediately when it is set. -/
def yieldLoop (stopAt : Option ℕ) (t : ℕ) : List Message → YieldRun
  | [] => { ys := [], next := t, early := false }
  | m :: ms =>
    if flagAt stopAt t then { ys := [], next := t, early := true }
    else
      let run := yieldLoop stopAt (t + 1) ms
      { run with ys := (t, m) :: run.ys }

/-- Embedding of `BaseSalesforceStreaming.messages`, one flag read per tick:
read the flag at loop top (return if set); send the connect frame,
consuming the next poll outcome; on `asyncio.TimeoutError` or a 408
response error, continue; on any other response error, raise; on success,
read the flag again (return if set) and run the yield loop over the
response array; then loop. An empty outcome supply ends the trace. -/
def runMessages (stopAt : Option ℕ) (t : ℕ) :
    List PollOutcome → MsgRun
  | [] =>
    if flagAt stopAt t then { sendTimes := [], yielded := [], ending := .stopped }
    else { sendTimes := [], yielded := [], ending := .ranOut }
  | o :: rest =>
    if flagAt stopAt t then { sendTimes := [], yielded := [], ending := .stopped }
    else
      match o with
      | .timeout =>
        let run := runMessages stopAt (t + 1) rest
        { run with sendTimes := t :: run.sendTimes }
      | .httpError code =>
        if code = 408 then
          let run := runMessages stopAt (t + 1) rest
          { run with sendTimes := t :: run.sendTimes }
        else
          { sendTimes := [t], yielded := [], ending := .failed code }
      | .success msgs =>
        if flagAt stopAt (t + 1) then
          { sendTimes := [t], yielded := [], ending := .stopped }
        else
          let yl := yieldLoop stopAt (t + 2) msgs
          if yl.early then { sendTimes := [t], yielded := yl.ys, ending := .stopped }
          else
            let run := runMessages stopAt yl.next rest
            { run with
              sendTimes := t :: run.sendTimes
              yielded := yl.ys ++ run.yielded }

end AioSfStreaming

namespace AioSfStreaming

/-! ### Auto-reconnect message loop (`mixins.py`, `AutoReconnectMixin.messages`) -/

/-- Embedding of `AutoReconnectMixin.messages`, driven by the list of messages produced
by the inner `messages()` generator, with `subs` the channels currently in
`self._subchannels` (the set is not mutated by this loop: the re-subscribe
tasks it spawns call the inner `subscribe`). For each inner message:
`channel = message["channel"]` (a `KeyError` when the key is absent); when
`channel.startswith("/meta/")` and `message.get("error") ==
"403::Unknown client"`, await `self.handshake()` — which delegates inward
and then spawns one fire-and-forget inner-`subscribe` task per channel of
`self._subchannels` — and continue without yielding; otherwise yield the
message. Returns the yielded messages and, per handshake performed, the
list of channels re-subscribed. -/
def arMessages (subs : List String) :
    List Message → Except PyErr (List Message × List (List String))
  | [] => .ok ([], [])
  | m :: ms =>
    match m.channel with
    | none => .error .keyError
    | some ch =>
      match arMessages subs ms with
      | .error e => .error e
      | .ok (ys, hs) =>
        if strStartsWith ch "/meta/" && m.error == some "403::Unknown client" then
          .ok (ys, subs :: hs)
        else
          .ok (m :: ys, hs)

/-- Whether a message triggers the auto-reconnect (suppression + handshake)
branch. -/
def triggersReconnect (m : Message) : Bool :=
  strStartsWith (m.channel.getD "") "/meta/" && m.error == some "403::Unknown client"

end AioSfStreaming

namespace AioSfStreaming

/-! ### Send / handshake frame bookkeeping (`core.py`) -/

/-- The mutable session fields that `send` / `handshake` touch:
`self.message_count` and `self.client_id`. -/
structure Session where
  messageCount : ℕ
  clientId : Option String
  deriving DecidableEq

/-- Python truthiness of `self.client_id` (an `Optional[str]`): `None` and
`""` are falsy. -/
def pyTruthyStr (s : Option String) : Bool :=
  match s with
  | none => false
  | some v => v ≠ ""

/-- An outbound frame: the fields injected by `send` (`id`, `clientId`) on
top of the payload's `channel` and optional `subscription` (constant
payload fields such as `supportedConnectionTypes` or `connectionType` are
omitted: `send` never reads or writes them). -/
structure Frame where
  channel : String
  subscription : Option String := none
  frId : String := ""
  clientId : Option String := none
  deriving DecidableEq

/-- Embedding of `BaseSalesforceStreaming.send`: increment `self.message_count`, copy the
payload, set `data["id"] = str(self.message_count)`, set
`data["clientId"] = self.client_id` if `self.client_id` is truthy, then
post. Returns the transmitted frame and the new session state. -/
def send (s : Session) (data : Frame) : Frame × Session :=
  let count := s.messageCount + 1
  let data :=
    { data with
      frId := toString count
      clientId := if pyTruthyStr s.clientId then s.clientId else data.clientId }
  (data, { s with messageCount := count })

/-- Embedding of `BaseSalesforceStreaming.handshake`: reset `self.message_count` to 0,
send the handshake payload, store `response[0]["clientId"]` (supplied here
by the environment as `respClientId`). -/
def handshake (s : Session) (respClientId : String) : Frame × Session :=
  let s := { s with messageCount := 0 }
  let (f, s) := send s { channel := "/meta/handshake" }
  (f, { s with clientId := some respClientId })

/-- One protocol operation of the end-to-end scenario. -/
inductive SAction where
  | hs (respClientId : String)
  | sub (ch : String)
  | conn
  | unsub (ch : String)
  | disc
  deriving DecidableEq

/-- The frame each operation passes to `send`, per
`get_handshake_payload` / `get_subscribe_payload` /
`get_unsubscribe_payload`, the connect frame of `messages()`, and
`disconnect`. -/
def stepAction (s : Session) : SAction → Frame × Session
  | .hs cid => handshake s cid
  | .sub ch => send s { channel := "/meta/subscribe", subscription := some ch }
  | .conn => send s { channel := "/meta/connect" }
  | .unsub ch => send s { channel := "/meta/unsubscribe", subscription := some ch }
  | .disc => send s { channel := "/meta/disconnect" }

/-- Transmitted frames of a sequence of protocol operations. -/
def runActions (s : Session) : List SAction → List Frame
  | [] => []
  | a :: rest =>
    let (f, s') := stepAction s a
    f :: runActions s' rest

end AioSfStreaming

namespace AioSfStreaming

/-! ### `stop()` without a live transport session (`core.py`) -/

/-- The client fields read or written along `stop()`:
`self.should_stop`, `self.session` (the transport handle, `None` before
`start()` and after `close_session()`), and `self.message_count`. -/
structure ClientState where
  shouldStop : Bool
  hasSession : Bool
  messageCount : ℕ
  deriving DecidableEq

/-- Embedding of `BaseSalesforceStreaming.request`: `self.session.request(...)` — when
`self.session` is `None`, attribute access on `None` raises
`AttributeError` before anything is transmitted. -/
def requestOverSession (hasSession : Bool) : Option PyErr :=
  if hasSession then none else some .attributeError

/-- Embedding of `BaseSalesforceStreaming.stop`: `ask_stop()` (set the flag), then
`disconnect()` — which goes through `send` (incrementing
`self.message_count`) and `request` — then `close_session()` (itself a
no-op when the session is already `None`). Returns the state after the
call and the exception it raised, if any. -/
def pyStop (st : ClientState) : ClientState × Option PyErr :=
  let st := { st with shouldStop := true }
  let st := { st with messageCount := st.messageCount + 1 }
  match requestOverSession st.hasSession with
  | some e => (st, some e)
  | none => ({ st with hasSession := false }, none)

end AioSfStreaming

namespace AioSfStreaming

section Theorems

/-- Helper: `eventsOf` is the filter of its input. -/
theorem eventsOf_eq_filter (ms : List Message) :
    eventsOf ms = ms.filter fun m => !(strStartsWith m.channelD "/meta/") := by
  induction ms with
  | nil => rfl
  | cons m ms ih =>
    by_cases h : strStartsWith m.channelD "/meta/" = true
    · simp [eventsOf, List.filter, h, ih]
    · simp [eventsOf, List.filter, h, ih]

/-- C9: `events()` equals `messages()` filtered by "channel does not start
with `/meta/`": it never yields a meta-channel message, preserves relative
order (its output is a sublist of its input), and — in the list model —
terminates exactly with the underlying sequence. -/
theorem events_is_meta_filter (ms : List Message) :
    eventsOf ms = eventsSpec ms
    ∧ (eventsOf ms).all (fun m => !(strStartsWith m.channelD "/meta/")) = true
    ∧ List.Sublist (eventsOf ms) ms := by
  refine ⟨eventsOf_eq_filter ms, ?_, ?_⟩
  · rw [eventsOf_eq_filter]
    simp [List.all_eq_true]
  · rw [eventsOf_eq_filter]
    exact List.filter_sublist ms

/-- C10: on an auto-reconnect client, `unsubscribe()` on a channel absent
from the subscription set raises `KeyError` before any unsubscribe frame is
built or sent and leaves the set unchanged; it succeeds without error
exactly for channels present in the set (those previously added by
`subscribe()`, which inserts its channel). -/
theorem unsubscribe_unknown_channel_keyerror (subs : Finset String) (ch : String) :
    (ch ∉ subs →
      arUnsubscribe subs ch =
        { subs := subs, sentFor := none, err := some .keyError })
    ∧ (ch ∈ subs →
      (arUnsubscribe subs ch).err = none
      ∧ (arUnsubscribe subs ch).sentFor = some ch
      ∧ (arUnsubscribe subs ch).subs = subs.erase ch)
    ∧ ((arUnsubscribe subs ch).err = none ↔ ch ∈ subs)
    ∧ ch ∈ arSubscribe subs ch := by
  refine ⟨fun h => by simp [arUnsubscribe, h], fun h => by simp [arUnsubscribe, h], ?_, ?_⟩
  · by_cases h : ch ∈ subs <;> simp [arUnsubscribe, h]
  · simp [arSubscribe]

/-- Witness for `unsubscribe_unknown_channel_keyerror`: the empty set for
the failing branch, a singleton for the succeeding branch. -/
theorem unsubscribe_unknown_channel_keyerror_witness :
    arUnsubscribe (∅ : Finset String) "/topic/A" =
      { subs := ∅, sentFor := none, err := some .keyError }
    ∧ (arUnsubscribe ({"/topic/A"} : Finset String) "/topic/A").err = none :=
  ⟨(unsubscribe_unknown_channel_keyerror ∅ "/topic/A").1 (by decide),
   ((unsubscribe_unknown_channel_keyerror {"/topic/A"} "/topic/A").2.1 (by simp)).1⟩

/-- C4 counterexample: the claim maps every non-`None`, non-sentinel value
to itself, but the callback value `0` — a literal position — is falsy in
Python, so the code replaces it by `NEW_EVENTS` and the payload carries
`-1`, not `0`. -/
theorem replay_zero_position_cex :
    (getSubscribePayload "/topic/Foo" (.position 0)).extReplay =
      [("/topic/Foo", -1)]
    ∧ computeReplayId (.position 0) ≠ (0 : Int) :=
  ⟨rfl, by decide⟩

/-- C4 (amended): the payload carries `-1` for `None`, `-2` for the
`ALL_EVENTS` sentinel, and, for an integer position, that integer — except
that the falsy position `0` is treated like an absent position and
yields `-1`. -/
theorem replay_payload_values (ch : String) :
    getSubscribePayload ch .noStored =
      { channel := "/meta/subscribe", subscription := ch, extReplay := [(ch, -1)] }
    ∧ getSubscribePayload ch (.sentinel .ALL_EVENTS) =
      { channel := "/meta/subscribe", subscription := ch, extReplay := [(ch, -2)] }
    ∧ getSubscribePayload ch (.sentinel .NEW_EVENTS) =
      { channel := "/meta/subscribe", subscription := ch, extReplay := [(ch, -1)] }
    ∧ ∀ n : Int, getSubscribePayload ch (.position n) =
      { channel := "/meta/subscribe", subscription := ch,
        extReplay := [(ch, if n = 0 then -1 else n)] } := by
  refine ⟨rfl, rfl, rfl, fun n => ?_⟩
  by_cases h : n = 0 <;>
    simp [getSubscribePayload, computeReplayId, ReplayResult.truthy, h, ReplayType.value]

/-- C7: with no live transport session (`self.session is None` — before
`start()` or after a completed `stop()`), `stop()` sets the stop-flag,
then `disconnect()`'s `send` reaches `request`, whose
`self.session.request(...)` raises `AttributeError`: the call is not the
no-op the spec requires. -/
theorem stop_without_session_raises :
    pyStop { shouldStop := false, hasSession := false, messageCount := 0 } =
      ({ shouldStop := true, hasSession := false, messageCount := 1 },
        some .attributeError)
    ∧ ∀ st : ClientState,
        (pyStop st).2 = (if st.hasSession then none else some PyErr.attributeError)
        ∧ (pyStop st).1.shouldStop = true := by
  refine ⟨rfl, fun st => ?_⟩
  cases h : st.hasSession <;> simp [pyStop, requestOverSession, h]

/-- C1: the busy-retry loop does make exactly N+1 inner calls around N busy
responses, but caps the backoff with `retry_max_count` instead of
`retry_max_duration` (`_update_retry_count`, mixins.py line 278): with
initial duration 10, factor 3, max duration 100 and max count 5, the second
sleep is `min(10 * 3, 5) = 5` where the claim (and the constructor's own
docstring) require `min(30, 100) = 30`. -/
theorem retry_backoff_capped_by_max_count :
    subscribeLoop cfgEx .unset [.response busyR, .response busyR, .response okR] =
      { term := .ok okR, state := .unset, calls := 3, sleeps := [10, 5] }
    ∧ (10 : ℚ) * cfgEx.retry_factor ≤ cfgEx.retry_max_duration
    ∧ ¬((5 : ℚ) = 10 * cfgEx.retry_factor) := by
  have hbusy : shouldRetryOnErrorResponse busyR = true := by decide
  have hsucc : busyR.successful = false := by decide
  have h1 : updateRetryCount cfgEx RetryState.unset =
      (true, { count := 1, duration := 10 }) := by
    simp only [updateRetryCount, cfgEx, RetryState.unset]
    norm_num
  have h2 : updateRetryCount cfgEx { count := 1, duration := 10 } =
      (true, { count := 2, duration := 5 }) := by
    simp only [updateRetryCount, cfgEx]
    norm_num [min_def]
  refine ⟨?_, by norm_num [cfgEx], by norm_num [cfgEx]⟩
  simp only [subscribeLoop, hbusy, hsucc, h1, h2, okR, Bool.false_eq_true, if_false,
    if_true, ite_true, ite_false]

/-- C8 counterexample: after one retryable busy response, a non-retryable
exception terminates `subscribe()` by re-raising — and the retry state is
left at count 1 / duration 10 instead of being reset to unset. -/
theorem retry_state_not_reset_on_exception_cex :
    subscribeLoop cfgEx .unset [.response busyR, .raised] =
      { term := .exn, state := { count := 1, duration := 10 }, calls := 2,
        sleeps := [10] }
    ∧ ({ count := 1, duration := 10 } : RetryState) ≠ .unset := by
  have hbusy : shouldRetryOnErrorResponse busyR = true := by decide
  have hsucc : busyR.successful = false := by decide
  have h1 : updateRetryCount cfgEx RetryState.unset =
      (true, { count := 1, duration := 10 }) := by
    simp only [updateRetryCount, cfgEx, RetryState.unset]
    norm_num
  constructor
  · simp only [subscribeLoop, hbusy, hsucc, h1, Bool.false_eq_true, if_false,
      if_true, ite_true, ite_false]
  · simp only [RetryState.unset, ne_eq, RetryState.mk.injEq]
    norm_num

/-- C8 (amended): the per-channel retry state is reset to unset on every
terminal outcome that returns a response (success, non-retryable failure
response, or count exhaustion reached through a failure response); a
terminal outcome that re-raises an exception leaves the retry state
exactly as it was. -/
theorem retry_state_reset_on_response_terminal :
    (∀ (cfg : RetryConfig) (st : RetryState) (os : List SubOutcome) (r : SubResult),
      (subscribeLoop cfg st os).term = .ok r →
      (subscribeLoop cfg st os).state = .unset)
    ∧ ∀ (cfg : RetryConfig) (st : RetryState),
      (subscribeLoop cfg st [.raised]).term = .exn
      ∧ (subscribeLoop cfg st [.raised]).state = st := by
  constructor
  · intro cfg st os
    induction os generalizing st with
    | nil =>
      intro r h
      simp [subscribeLoop] at h
    | cons o rest ih =>
      intro r h
      cases o with
      | raised => simp [subscribeLoop] at h
      | response r' =>
        by_cases hs : r'.successful = true
        · simp [subscribeLoop, hs]
        · by_cases hr : shouldRetryOnErrorResponse r' = true
          · by_cases hgo : (updateRetryCount cfg st).1 = true
            · simp only [subscribeLoop, hs, hr, hgo, if_true, if_false,
                Bool.false_eq_true, ite_false, ite_true] at h ⊢
              exact ih _ _ h
            · simp [subscribeLoop, hs, hr, hgo]
          · simp [subscribeLoop, hs, hr]
  · intro cfg st
    exact ⟨rfl, rfl⟩

/-- Witness for `retry_state_reset_on_response_terminal`: a single
successful response resets the state. -/
theorem retry_state_reset_on_response_terminal_witness :
    (subscribeLoop
      { retry_sub_duration := 10, retry_factor := 3,
        retry_max_duration := 100, retry_max_count := 5 }
      { count := 3, duration := 7 }
      [.response { successful := true, failureReason := none }]).state = .unset :=
  retry_state_reset_on_response_terminal.1
    { retry_sub_duration := 10, retry_factor := 3,
      retry_max_duration := 100, retry_max_count := 5 }
    { count := 3, duration := 7 }
    [.response { successful := true, failureReason := none }]
    { successful := true, failureReason := none }
    (by decide)

/-- C3: every outbound frame goes through `send`, which increments the
session message counter, stamps the frame with the stringified counter and
attaches `clientId` exactly when a (truthy) client-id is held; and since
`handshake` resets the counter to 0 before sending, the scenario
handshake / two subscribes / five connects / two unsubscribes / disconnect
transmits frames with ids "1" through "11" in order, `clientId` present on
every frame after the handshake (the initial counter 7 shows the reset). -/
theorem send_monotonic_ids_scenario :
    (∀ (s : Session) (f : Frame),
      (send s f).2.messageCount = s.messageCount + 1
      ∧ (send s f).1.frId = toString (s.messageCount + 1)
      ∧ (send s f).1.clientId =
          (if pyTruthyStr s.clientId then s.clientId else f.clientId))
    ∧ (runActions { messageCount := 7, clientId := none }
        [.hs "clientX", .sub "/topic/A", .sub "/topic/B", .conn, .conn, .conn,
         .conn, .conn, .unsub "/topic/A", .unsub "/topic/B", .disc]).map
        (fun f => (f.frId, f.clientId)) =
      [("1", none), ("2", some "clientX"), ("3", some "clientX"),
       ("4", some "clientX"), ("5", some "clientX"), ("6", some "clientX"),
       ("7", some "clientX"), ("8", some "clientX"), ("9", some "clientX"),
       ("10", some "clientX"), ("11", some "clientX")] := by
  refine ⟨fun s f => ⟨rfl, rfl, rfl⟩, ?_⟩
  rfl

/-- C5: the auto-reconnect wrapper suppresses every meta-channel message
whose `error` is `"403::Unknown client"`, performing one `handshake()` per
such message, each of which re-issues a fire-and-forget `subscribe()` for
every channel in the subscription set, while all other messages are yielded
unchanged and the loop continues. -/
theorem reconnect_suppresses_and_resubscribes (subs : List String)
    (ms : List Message) (h : ∀ m ∈ ms, m.channel.isSome = true) :
    arMessages subs ms =
      .ok (ms.filter (fun m => !triggersReconnect m),
           (ms.filter triggersReconnect).map fun _ => subs) := by
  induction ms with
  | nil => rfl
  | cons m ms ih =>
    have hm : m.channel.isSome = true := h m (by simp)
    have hrest : ∀ m' ∈ ms, m'.channel.isSome = true :=
      fun m' hm' => h m' (by simp [hm'])
    obtain ⟨ch, hch⟩ := Option.isSome_iff_exists.mp hm
    by_cases ht : triggersReconnect m = true
    · have ht' : (strStartsWith ch "/meta/" && m.error == some "403::Unknown client") = true := by
        simpa [triggersReconnect, hch] using ht
      simp [arMessages, hch, ih hrest, ht', List.filter_cons, ht]
    · have ht' : (strStartsWith ch "/meta/" && m.error == some "403::Unknown client") = false := by
        rw [Bool.eq_false_iff]
        intro hc
        exact ht (by simpa [triggersReconnect, hch] using hc)
      simp [arMessages, hch, ih hrest, ht', List.filter_cons, ht]

/-- Witness for `reconnect_suppresses_and_resubscribes`: a session-loss
meta message followed by an event message, with two subscribed channels. -/
theorem reconnect_suppresses_and_resubscribes_witness :
    arMessages ["/topic/A", "/topic/B"]
      [{ channel := some "/meta/connect", error := some "403::Unknown client" },
       { channel := some "/topic/A", error := none }] =
      .ok ([{ channel := some "/topic/A", error := none }],
           [["/topic/A", "/topic/B"]]) := by
  rw [reconnect_suppresses_and_resubscribes ["/topic/A", "/topic/B"]
    [{ channel := some "/meta/connect", error := some "403::Unknown client" },
     { channel := some "/topic/A", error := none }] (by decide)]
  rfl

/-- Helper: with the stop-flag never set, the yield loop yields every
element of the batch and does not return early. -/
theorem yieldLoop_none_spec (t : ℕ) (ms : List Message) :
    (yieldLoop none t ms).ys.map Prod.snd = ms
    ∧ (yieldLoop none t ms).early = false := by
  induction ms generalizing t with
  | nil => exact ⟨rfl, rfl⟩
  | cons m ms ih =>
    simp only [yieldLoop, flagAt, Bool.false_eq_true, if_false, List.map_cons]
    exact ⟨by rw [(ih (t + 1)).1], (ih (t + 1)).2⟩

/-- Helper: with the stop-flag never set, a prefix of timeout-class
outcomes (local timeout or HTTP 408) contributes one send each and no
yields, then the run continues on the remaining outcomes. -/
theorem runMessages_none_timeout_prefix (pre : List PollOutcome)
    (h : ∀ o ∈ pre, o = .timeout ∨ o = .httpError 408)
    (t : ℕ) (rest : List PollOutcome) :
    (runMessages none t (pre ++ rest)).yielded
      = (runMessages none (t + pre.length) rest).yielded
    ∧ (runMessages none t (pre ++ rest)).sendTimes.length
      = pre.length + (runMessages none (t + pre.length) rest).sendTimes.length
    ∧ (runMessages none t (pre ++ rest)).ending
      = (runMessages none (t + pre.length) rest).ending := by
  induction pre generalizing t with
  | nil => simp
  | cons o pre ih =>
    have hrest : ∀ o' ∈ pre, o' = .timeout ∨ o' = .httpError 408 :=
      fun o' h' => h o' (by simp [h'])
    have harith : t + 1 + pre.length = t + (pre.length + 1) := by omega
    rcases h o (by simp) with rfl | rfl
    · have hih := ih hrest (t + 1)
      simp only [List.cons_append, runMessages, flagAt, Bool.false_eq_true,
        if_false, List.length_cons, List.append_eq, harith] at hih ⊢
      refine ⟨hih.1, ?_, hih.2.2⟩
      have h2 := hih.2.1
      omega
    · have hih := ih hrest (t + 1)
      simp only [List.cons_append, runMessages, flagAt, Bool.false_eq_true,
        if_false, if_true, List.length_cons, List.append_eq, harith,
        reduceIte] at hih ⊢
      refine ⟨hih.1, ?_, hih.2.2⟩
      have h2 := hih.2.1
      omega

/-- Helper: with the stop-flag never set, a single successful long-poll
yields exactly its batch and the trace then runs out of supplied outcomes. -/
theorem runMessages_none_success (t : ℕ) (msgs : List Message) :
    runMessages none t [.success msgs] =
      { sendTimes := [t], yielded := (yieldLoop none (t + 2) msgs).ys,
        ending := .ranOut } := by
  have hy := (yieldLoop_none_spec (t + 2) msgs).2
  simp [runMessages, flagAt, hy]

/-- Helper: with the stop-flag never set, a non-408 response error makes the
run raise with that code, yielding nothing. -/
theorem runMessages_none_error (t code : ℕ) (hc : code ≠ 408) :
    runMessages none t [.httpError code] =
      { sendTimes := [t], yielded := [], ending := .failed code } := by
  simp [runMessages, flagAt, hc]

/-- C2: for a long-poll outcome sequence of timeout signals (local expiry
or HTTP 408) followed by one success, `messages()` yields exactly the
success's elements in order, with one send per timeout plus one for the
success and nothing yielded for the timed-out attempts; and for a non-408
transport error after such timeouts, nothing is yielded and the error
propagates, ending the sequence. -/
theorem messages_timeouts_then_success (t : ℕ) (pre : List PollOutcome)
    (h : ∀ o ∈ pre, o = .timeout ∨ o = .httpError 408) :
    (∀ msgs : List Message,
      (runMessages none t (pre ++ [.success msgs])).yielded.map Prod.snd = msgs
      ∧ (runMessages none t (pre ++ [.success msgs])).sendTimes.length
          = pre.length + 1
      ∧ (runMessages none t (pre ++ [.success msgs])).ending = .ranOut)
    ∧ ∀ code : ℕ, code ≠ 408 →
      (runMessages none t (pre ++ [.httpError code])).yielded = []
      ∧ (runMessages none t (pre ++ [.httpError code])).sendTimes.length
          = pre.length + 1
      ∧ (runMessages none t (pre ++ [.httpError code])).ending = .failed code := by
  constructor
  · intro msgs
    have hp := runMessages_none_timeout_prefix pre h t [.success msgs]
    have hs := runMessages_none_success (t + pre.length) msgs
    have hy := (yieldLoop_none_spec (t + pre.length + 2) msgs).1
    refine ⟨?_, ?_, ?_⟩
    · rw [hp.1, hs]
      exact hy
    · rw [hp.2.1, hs]
      simp
    · rw [hp.2.2, hs]
  · intro code hc
    have hp := runMessages_none_timeout_prefix pre h t [.httpError code]
    have he := runMessages_none_error (t + pre.length) code hc
    refine ⟨?_, ?_, ?_⟩
    · rw [hp.1, he]
    · rw [hp.2.1, he]
      simp
    · rw [hp.2.2, he]

/-- Witness for `messages_timeouts_then_success`: one local timeout, one
408 response, then a success carrying one message (and, for the error
branch, a 500 response error). -/
theorem messages_timeouts_then_success_witness :
    ((runMessages none 0
        ([.timeout, .httpError 408] ++
          [.success [{ channel := some "/topic/A", error := none }]])).yielded.map
        Prod.snd = [{ channel := some "/topic/A", error := none }]
      ∧ (runMessages none 0
          ([.timeout, .httpError 408] ++ [.httpError 500])).ending = .failed 500) := by
  have h := messages_timeouts_then_success 0 [.timeout, .httpError 408] (by decide)
  exact ⟨(h.1 [{ channel := some "/topic/A", error := none }]).1,
    (h.2 500 (by decide)).2.2⟩

/-- Helper: every yield of the yield loop happens at a flag-read time
strictly before the flag-set time `k`. -/
theorem yieldLoop_times_lt (k : ℕ) (ms : List Message) :
    ∀ t, ∀ p ∈ (yieldLoop (some k) t ms).ys, p.1 < k := by
  induction ms with
  | nil => intro t p hp; simp [yieldLoop] at hp
  | cons m ms ih =>
    intro t p hp
    by_cases hk : k ≤ t
    · simp [yieldLoop, flagAt, hk] at hp
    · simp only [yieldLoop, flagAt, decide_eq_true_eq, if_neg hk,
        List.mem_cons] at hp
      rcases hp with rfl | hp
      · omega
      · exact ih (t + 1) p hp

/-- Helper: the yield loop with flag-set time `k`, entered at read time
`t`, yields exactly the first `k - t` elements of the batch: if the flag is
set mid-batch the remaining elements are never yielded. -/
theorem yieldLoop_take (k : ℕ) (ms : List Message) :
    ∀ t, (yieldLoop (some k) t ms).ys.map Prod.snd = ms.take (k - t) := by
  induction ms with
  | nil => intro t; simp [yieldLoop]
  | cons m ms ih =>
    intro t
    by_cases hk : k ≤ t
    · have h0 : k - t = 0 := by omega
      simp [yieldLoop, flagAt, hk, h0]
    · have h1 : k - t = (k - (t + 1)) + 1 := by omega
      simp only [yieldLoop, flagAt, decide_eq_true_eq, if_neg hk,
        List.map_cons, ih (t + 1), h1, List.take_succ_cons]

/-- Helper: in a run with flag-set time `k`, every send and every yield
happens at a flag-read time strictly before `k`. -/
theorem runMessages_stop_times (k : ℕ) (polls : List PollOutcome) :
    ∀ t, (∀ p ∈ (runMessages (some k) t polls).yielded, p.1 < k)
    ∧ (∀ s ∈ (runMessages (some k) t polls).sendTimes, s < k) := by
  induction polls with
  | nil =>
    intro t
    by_cases hk : k ≤ t <;> simp [runMessages, flagAt, hk]
  | cons o polls ih =>
    intro t
    by_cases hk : k ≤ t
    · simp [runMessages, flagAt, hk]
    · cases o with
      | timeout =>
        have := ih (t + 1)
        simp only [runMessages, flagAt, decide_eq_true_eq, if_neg hk]
        exact ⟨this.1, by
          intro s hs
          rcases List.mem_cons.mp hs with rfl | hs
          · omega
          · exact this.2 s hs⟩
      | httpError code =>
        by_cases h408 : code = 408
        · have := ih (t + 1)
          simp only [runMessages, flagAt, decide_eq_true_eq, if_neg hk, h408,
            if_pos rfl, reduceIte]
          exact ⟨this.1, by
            intro s hs
            rcases List.mem_cons.mp hs with rfl | hs
            · omega
            · exact this.2 s hs⟩
        · simp only [runMessages, flagAt, decide_eq_true_eq, if_neg hk,
            if_neg h408]
          exact ⟨by simp, by
            intro s hs
            simp only [List.mem_singleton] at hs
            omega⟩
      | success msgs =>
        by_cases hk1 : k ≤ t + 1
        · simp only [runMessages, flagAt, decide_eq_true_eq, if_neg hk,
            if_pos hk1]
          exact ⟨by simp, by
            intro s hs
            simp only [List.mem_singleton] at hs
            omega⟩
        · by_cases he : (yieldLoop (some k) (t + 2) msgs).early = true
          · simp only [runMessages, flagAt, decide_eq_true_eq, if_neg hk,
              if_neg hk1, he, if_pos rfl, reduceIte]
            exact ⟨fun p hp => yieldLoop_times_lt k msgs (t + 2) p hp, by
              intro s hs
              simp only [List.mem_singleton] at hs
              omega⟩
          · have := ih (yieldLoop (some k) (t + 2) msgs).next
            simp only [runMessages, flagAt, decide_eq_true_eq, if_neg hk,
              if_neg hk1, he, Bool.false_eq_true, if_false, reduceIte]
            refine ⟨?_, ?_⟩
            · intro p hp
              rcases List.mem_append.mp hp with hp | hp
              · exact yieldLoop_times_lt k msgs (t + 2) p hp
              · exact this.1 p hp
            · intro s hs
              rcases List.mem_cons.mp hs with rfl | hs
              · omega
              · exact this.2 s hs

/-- C6: once the stop-flag has been observed set (flag-set read time `k`),
no further element is yielded and no further send is issued — every yield
and every send of a run happens at a flag-read strictly before `k` — and
the in-batch yield loop entered at read time `t` yields exactly the first
`k - t` elements, cutting the batch mid-array when the flag is set with
elements still unyielded. -/
theorem stop_flag_halts_stream (k t : ℕ) (polls : List PollOutcome)
    (msgs : List Message) :
    ((runMessages (some k) t polls).yielded.all fun p => decide (p.1 < k)) = true
    ∧ ((runMessages (some k) t polls).sendTimes.all fun s => decide (s < k)) = true
    ∧ (yieldLoop (some k) t msgs).ys.map Prod.snd = msgs.take (k - t) := by
  have h := runMessages_stop_times k polls t
  refine ⟨?_, ?_, yieldLoop_take k msgs t⟩
  · rw [List.all_eq_true]
    intro p hp
    simpa using h.1 p hp
  · rw [List.all_eq_true]
    intro s hs
    simpa using h.2 s hs

end Theorems

end AioSfStreaming
